import Mathlib

/-!
Verification of the question-routing / tool-dispatch agent graph in
`17_Deploying_Open_Source_Endpoints/app/graphs/simple_agent.py` against its
natural-language specification.

The embedding is shallow: each Python function of the router becomes a Lean
function of the same name; the LangGraph state dict `AgentState` becomes a
structure; external collaborators (the retrieval tool, the web-search tool,
the arXiv tool, the chat model) are parameters of type `String → Except String
String` (query to result text, or a raised error rendered as `str(e)`), and
`List Msg → Except String Msg` for the model.  A Python exception that escapes
a node is modelled by the `PyExn` error type threaded through `Except`.
-/

/-- Role-tagged conversation message, mirroring langchain's `HumanMessage`,
`AIMessage` and `SystemMessage`. -/
inductive Msg where
  | human (content : String)
  | ai (content : String)
  | system (content : String)
deriving DecidableEq

/-- Python exceptions that can escape a graph node in this model:
`unboundLocal name` models an `UnboundLocalError` raised by evaluating a local
variable that was never assigned, and `modelError msg` models an exception
raised by the chat-model collaborator (propagated uncaught by
`generate_response`). -/
inductive PyExn where
  | unboundLocal (name : String)
  | modelError (message : String)
deriving DecidableEq

/-- State schema of the agent graphs (`app/state.py`): a message list plus the
routing fields.  `add_messages` append semantics is applied explicitly where
nodes return message updates. -/
structure AgentState where
  messages : List Msg
  tool_choice : Option String
  question : Option String
deriving DecidableEq

/-- Containment of `needle` as a contiguous sublist of `hay`, the semantics of
Python's `needle in hay` on strings. -/
def containsSub (needle : List Char) : List Char → Bool
  | [] => needle.isEmpty
  | c :: t => needle.isPrefixOf (c :: t) || containsSub needle t

/-- Python's `needle in hay` on strings. -/
def pyIn (needle hay : String) : Bool :=
  containsSub needle.data hay.data

/-- Python's `str.lower()` (the keywords and questions at issue are ASCII, for
which `Char.toLower` agrees with Python). -/
def pyLower (s : String) : String :=
  ⟨s.data.map Char.toLower⟩

/-- Keyword list of `_should_use_rag` (simple_agent.py lines 24-29). -/
def rag_keywords : List String :=
  ["student loan", "financial aid", "pell grant", "fafsa", "tuition",
   "scholarship", "education loan", "federal aid", "college funding",
   "direct loan", "subsidized", "unsubsidized", "plus loan",
   "loan forgiveness", "repayment", "interest rate"]

/-- Determine if the question is about student loans and should use RAG
(simple_agent.py lines 22-31). -/
def _should_use_rag (question : String) : Bool :=
  rag_keywords.any (fun keyword => pyIn keyword (pyLower question))

/-- Keyword list of `_should_use_web_search` (simple_agent.py lines 36-39). -/
def web_keywords : List String :=
  ["current", "latest", "recent", "today", "news", "update",
   "2024", "2025", "now", "this year"]

/-- Determine if the question needs current web information (simple_agent.py
lines 34-41). -/
def _should_use_web_search (question : String) : Bool :=
  web_keywords.any (fun keyword => pyIn keyword (pyLower question))

/-- Keyword list of `_should_use_arxiv` (simple_agent.py lines 46-50); note the
keyword "AI" is upper-case in the source while the question is lower-cased
before matching. -/
def arxiv_keywords : List String :=
  ["research", "paper", "study", "academic", "publication",
   "machine learning", "AI", "artificial intelligence", "neural network",
   "algorithm", "computer science", "mathematics"]

/-- Determine if the question is academic/research oriented (simple_agent.py
lines 44-52). -/
def _should_use_arxiv (question : String) : Bool :=
  arxiv_keywords.any (fun keyword => pyIn keyword (pyLower question))

/-- Tool choice made by `analyze_question` for a non-empty question
(simple_agent.py lines 74-91): the `if/elif/elif` chain appends at most one
entry to `tools_to_use` and the first match wins. -/
def classifyChoice (question : String) : String :=
  if _should_use_rag question then "rag"
  else if _should_use_web_search question then "web_search"
  else if _should_use_arxiv question then "arxiv"
  else "direct"

/-- First human message content of a list, or `none`. -/
def firstHumanContent : List Msg → Option String
  | [] => none
  | .human c :: _ => some c
  | _ :: rest => firstHumanContent rest

/-- Content of the last `HumanMessage` in the conversation, scanning
newest-to-oldest as in `for msg in reversed(messages)` (simple_agent.py lines
61-64). -/
def lastHumanContent (messages : List Msg) : Option String :=
  firstHumanContent messages.reverse

/-- Analyze the user's question to determine which tools to use
(simple_agent.py lines 55-91).  Returns the `(tool_choice, question)` update.
Python's `if not last_human_message` is falsy both for a missing human message
and for one with empty content. -/
def analyze_question (state : AgentState) : String × String :=
  match lastHumanContent state.messages with
  | none => ("direct", "")
  | some q => if q = "" then ("direct", "") else (classifyChoice q, q)

/-- Question text a tool node works on (simple_agent.py lines 99-105 and the
identical blocks of the other two tool nodes): `state.get("question", "")`,
falling back to the newest human message when that is falsy. -/
def toolQuestion (state : AgentState) : String :=
  let question := state.question.getD ""
  if question = "" then (lastHumanContent state.messages).getD "" else question

/-- Use the RAG tool to get information about student loans (simple_agent.py
lines 94-123).  An exception from the collaborator is caught and converted
into a system message carrying the error text. -/
def use_rag_tool (retrieve_information : String → Except String String)
    (state : AgentState) : List Msg :=
  match retrieve_information (toolQuestion state) with
  | .ok rag_result => [Msg.system ("RAG Tool Result: " ++ rag_result)]
  | .error e => [Msg.system ("RAG tool error: " ++ e)]

/-- Use the web search tool for current information (simple_agent.py lines
126-161).  The Tavily call together with the result-formatting loop is
modelled as one collaborator producing the formatted text.  An exception is
caught and converted into a system message. -/
def use_web_search_tool (search : String → Except String String)
    (state : AgentState) : List Msg :=
  match search (toolQuestion state) with
  | .ok formatted_results => [Msg.system ("Web Search Results: " ++ formatted_results)]
  | .error e => [Msg.system ("Web search error: " ++ e)]

/-- Use the ArXiv search tool for academic papers (simple_agent.py lines
164-193).  The `except` branch (lines 188-193) constructs `error_message` but
returns `{"messages": [tool_message]}`; `tool_message` is only assigned inside
the `try` body, which did not complete when the collaborator raised, so the
handler itself raises `UnboundLocalError` for `tool_message` — modelled as
`PyExn.unboundLocal "tool_message"` escaping the node. -/
def use_arxiv_tool (arxiv_run : String → Except String String)
    (state : AgentState) : Except PyExn (List Msg) :=
  match arxiv_run (toolQuestion state) with
  | .ok arxiv_result => .ok [Msg.system ("ArXiv Search Results: " ++ arxiv_result)]
  | .error _e => .error (PyExn.unboundLocal "tool_message")

/-- Fixed instruction text prepended by `generate_response` (simple_agent.py
lines 202-204). -/
def system_prompt_content : String :=
  "You are a helpful assistant. If tool results are provided in the conversation, use them to answer the user's question. If no tool results are available, answer based on your knowledge."

/-- Generate final response using the chat model with any tool results
(simple_agent.py lines 196-210): prepend the fixed instruction, invoke the
model once, return its reply; a model failure is not caught, so it escapes as
`PyExn.modelError`. -/
def generate_response (model : List Msg → Except String Msg)
    (state : AgentState) : Except PyExn (List Msg) :=
  match model (Msg.system system_prompt_content :: state.messages) with
  | .ok response => .ok [response]
  | .error e => .error (PyExn.modelError e)

/-- Route to the appropriate tool or direct response (simple_agent.py lines
213-224); `state.get("tool_choice", "direct")` is modelled by `Option.getD`
(a stored Python `None` and a missing key route identically, to the final
`else`). -/
def route_to_tool (state : AgentState) : String :=
  if state.tool_choice.getD "direct" = "rag" then "use_rag"
  else if state.tool_choice.getD "direct" = "web_search" then "use_web_search"
  else if state.tool_choice.getD "direct" = "arxiv" then "use_arxiv"
  else "generate_response"

/-- Tool-dispatch stage of one graph run: execute the node selected by
`route_to_tool` and return the messages it appends (the `generate_response`
target of the conditional edge contributes none at this stage). -/
def dispatchStep (retrieve search arxiv_run : String → Except String String)
    (state : AgentState) : Except PyExn (List Msg) :=
  if route_to_tool state = "use_rag" then .ok (use_rag_tool retrieve state)
  else if route_to_tool state = "use_web_search" then .ok (use_web_search_tool search state)
  else if route_to_tool state = "use_arxiv" then use_arxiv_tool arxiv_run state
  else .ok []

/-- One invocation of the compiled graph built by `build_graph`
(simple_agent.py lines 227-261): entry node `analyze_question`, conditional
edge `route_to_tool` to one of the three tool nodes or straight to
`generate_response`, every tool node followed by `generate_response`, which
ends the graph.  Message updates returned by nodes are appended to the state's
message list (`add_messages`); the other state keys are overwritten.  This is
the spec's `route_and_respond(conversation) → conversation'` entry point. -/
def route_and_respond (retrieve search arxiv_run : String → Except String String)
    (model : List Msg → Except String Msg) (conversation : List Msg) :
    Except PyExn (List Msg) :=
  let upd := analyze_question { messages := conversation, tool_choice := none, question := none }
  let st1 : AgentState :=
    { messages := conversation, tool_choice := some upd.1, question := some upd.2 }
  match dispatchStep retrieve search arxiv_run st1 with
  | .error e => .error e
  | .ok toolMsgs =>
    let st2 : AgentState := { st1 with messages := st1.messages ++ toolMsgs }
    match generate_response model st2 with
    | .error e => .error e
    | .ok replies => .ok (st2.messages ++ replies)

/-- Spec-level routing labels (spec section 3, RoutingDecision): `retrieval`,
`web-search`, `academic-search`, `direct`. -/
inductive RoutingDecision where
  | retrieval
  | webSearch
  | academicSearch
  | direct
deriving DecidableEq

/-- Correspondence between the code's `tool_choice` strings and the spec's
RoutingDecision labels: "rag" is `retrieval`, "web_search" is `web-search`,
"arxiv" is `academic-search`, anything else is `direct`. -/
def decisionOfChoice (choice : String) : RoutingDecision :=
  if choice = "rag" then .retrieval
  else if choice = "web_search" then .webSearch
  else if choice = "arxiv" then .academicSearch
  else .direct

/-- The spec's `Classify(question) → RoutingDecision`: the code's keyword
chain of `analyze_question`, read through the label correspondence. -/
def Classify (question : String) : RoutingDecision :=
  decisionOfChoice (classifyChoice question)

/-- Recognizer for user-authored messages. -/
def isHumanMsg : Msg → Bool
  | .human _ => true
  | _ => false

/-- Splitting a character list on spaces, used to state that a keyword does
not occur as a standalone word. -/
def splitOnSpace : List Char → List (List Char)
  | [] => [[]]
  | c :: t =>
    if c = ' ' then [] :: splitOnSpace t
    else
      match splitOnSpace t with
      | [] => [[c]]
      | w :: ws => (c :: w) :: ws

example : _should_use_rag "What about TUITION fees?" = true := by decide
example : _should_use_web_search "latest news" = true := by decide
example : _should_use_arxiv "wallpaper" = true := by decide
example : _should_use_arxiv "tell me about AI" = false := by decide
example : Classify "What is the latest news on AI research?" = .webSearch := by decide
example : Classify "Hello, how are you?" = .direct := by decide

/-! ## Helper lemmas -/

/-- A list with no human message has no first human content. -/
theorem firstHumanContent_eq_none (l : List Msg)
    (h : l.all (fun m => !isHumanMsg m) = true) : firstHumanContent l = none := by
  induction l with
  | nil => rfl
  | cons m t ih =>
    simp only [List.all_cons, Bool.and_eq_true] at h
    cases m with
    | human c => simp [isHumanMsg] at h
    | ai c => simpa [firstHumanContent] using ih h.2
    | system c => simpa [firstHumanContent] using ih h.2

/-- The RAG tool node always returns exactly one system message. -/
theorem use_rag_tool_shape (retrieve : String → Except String String)
    (st : AgentState) : ∃ s, use_rag_tool retrieve st = [Msg.system s] := by
  unfold use_rag_tool
  cases h : retrieve (toolQuestion st) <;> exact ⟨_, rfl⟩

/-- The web-search tool node always returns exactly one system message. -/
theorem use_web_search_tool_shape (search : String → Except String String)
    (st : AgentState) : ∃ s, use_web_search_tool search st = [Msg.system s] := by
  unfold use_web_search_tool
  cases h : search (toolQuestion st) <;> exact ⟨_, rfl⟩

/-- When the arXiv tool node returns normally, it returns exactly one system
message. -/
theorem use_arxiv_tool_shape (arxiv_run : String → Except String String)
    (st : AgentState) (tms : List Msg) (h : use_arxiv_tool arxiv_run st = .ok tms) :
    ∃ s, tms = [Msg.system s] := by
  unfold use_arxiv_tool at h
  cases ha : arxiv_run (toolQuestion st) <;> rw [ha] at h
  · cases h
  · cases h
    exact ⟨_, rfl⟩

/-- The dispatch stage, when it returns normally, appends either nothing or a
single system message. -/
theorem dispatchStep_shape (retrieve search arxiv_run : String → Except String String)
    (st : AgentState) (tms : List Msg)
    (hd : dispatchStep retrieve search arxiv_run st = .ok tms) :
    tms = [] ∨ ∃ s, tms = [Msg.system s] := by
  simp only [dispatchStep] at hd
  split_ifs at hd
  · obtain ⟨s, hs⟩ := use_rag_tool_shape retrieve st
    cases hd
    exact .inr ⟨s, hs⟩
  · obtain ⟨s, hs⟩ := use_web_search_tool_shape search st
    cases hd
    exact .inr ⟨s, hs⟩
  · exact .inr (use_arxiv_tool_shape arxiv_run st tms hd)
  · cases hd
    exact .inl rfl

/-- When the arXiv collaborator cannot fail, the dispatch stage returns
normally. -/
theorem dispatchStep_ok (retrieve search arxiv_run : String → Except String String)
    (st : AgentState) (ha : ∀ q, ∃ v, arxiv_run q = .ok v) :
    ∃ tms, dispatchStep retrieve search arxiv_run st = .ok tms := by
  unfold dispatchStep
  split_ifs
  · exact ⟨_, rfl⟩
  · exact ⟨_, rfl⟩
  · obtain ⟨v, hv⟩ := ha (toolQuestion st)
    exact ⟨[Msg.system ("ArXiv Search Results: " ++ v)], by simp [use_arxiv_tool, hv]⟩
  · exact ⟨_, rfl⟩

/-! ## Claim theorems -/

/-- C2: for every question containing any keyword from the finance/education
set (the code's `rag_keywords`), `Classify` returns `retrieval`, regardless of
any recency or research keywords also present. -/
theorem c2_finance_keywords_force_retrieval (q : String)
    (h : _should_use_rag q = true) : Classify q = .retrieval := by
  simp [Classify, classifyChoice, decisionOfChoice, h]

/-- Witness for C2: concrete question containing finance, recency and
research keywords at once, still classified `retrieval`. -/
theorem c2_witness :
    _should_use_rag "What is the latest research on tuition repayment?" = true ∧
    _should_use_web_search "What is the latest research on tuition repayment?" = true ∧
    _should_use_arxiv "What is the latest research on tuition repayment?" = true ∧
    Classify "What is the latest research on tuition repayment?" = .retrieval :=
  ⟨by decide, by decide, by decide,
   c2_finance_keywords_force_retrieval _ (by decide)⟩

/-- C3: every question containing a recency keyword and no finance/education
keyword is classified `web-search`, research keywords notwithstanding. -/
theorem c3_recency_keywords_web_search (q : String)
    (hw : _should_use_web_search q = true) (hr : _should_use_rag q = false) :
    Classify q = .webSearch := by
  simp [Classify, classifyChoice, decisionOfChoice, hw, hr]

/-- Witness for C3: the spec's scenario question matches both recency and
research keywords but no finance keyword, and is classified `web-search`. -/
theorem c3_witness :
    _should_use_web_search "What is the latest news on AI research?" = true ∧
    _should_use_arxiv "What is the latest news on AI research?" = true ∧
    _should_use_rag "What is the latest news on AI research?" = false ∧
    Classify "What is the latest news on AI research?" = .webSearch :=
  ⟨by decide, by decide, by decide,
   c3_recency_keywords_web_search _ (by decide) (by decide)⟩

/-- C4: every question containing a research keyword but neither a
finance/education keyword nor a recency keyword is classified
`academic-search`. -/
theorem c4_research_keywords_academic_search (q : String)
    (ha : _should_use_arxiv q = true) (hr : _should_use_rag q = false)
    (hw : _should_use_web_search q = false) : Classify q = .academicSearch := by
  simp [Classify, classifyChoice, decisionOfChoice, ha, hr, hw]

/-- Witness for C4: concrete research-only question classified
`academic-search`. -/
theorem c4_witness :
    _should_use_arxiv "Find papers about neural networks" = true ∧
    _should_use_rag "Find papers about neural networks" = false ∧
    _should_use_web_search "Find papers about neural networks" = false ∧
    Classify "Find papers about neural networks" = .academicSearch :=
  ⟨by decide, by decide, by decide,
   c4_research_keywords_academic_search _ (by decide) (by decide) (by decide)⟩

/-- C10: keyword classification is substring containment on the lowercased
question, not whole-word matching: "Where can I buy wallpaper?" contains the
research keyword "paper" only embedded inside "wallpaper" (no
space-delimited word of the lowercased question equals "paper"), yet it is
classified `academic-search`. -/
theorem c10_substring_not_whole_word :
    _should_use_arxiv "Where can I buy wallpaper?" = true ∧
    (splitOnSpace (pyLower "Where can I buy wallpaper?").data).contains "paper".data = false ∧
    Classify "Where can I buy wallpaper?" = .academicSearch := by
  decide

/-- C1 is violated by the code: on a question routed to the academic-search
tool whose collaborator raises, the `except` branch of `use_arxiv_tool`
evaluates the unbound local `tool_message` (simple_agent.py line 193), so an
`UnboundLocalError` escapes the tool-dispatch stage instead of being
converted into an error-text system message.  The second conjunct shows the
claimed behaviour does hold for the retrieval tool, whose handler returns the
`error_message` it builds. -/
theorem c1_arxiv_error_escapes_dispatch :
    route_and_respond (fun _ => .error "unused") (fun _ => .error "unused")
        (fun _ => .error "arxiv service unavailable") (fun _ => .ok (Msg.ai "answer"))
        [Msg.human "Summarize the study of neural networks"]
      = .error (PyExn.unboundLocal "tool_message") ∧
    route_and_respond (fun _ => .error "vector store down") (fun _ => .error "unused")
        (fun _ => .error "unused") (fun _ => .ok (Msg.ai "answer"))
        [Msg.human "How do I apply for FAFSA?"]
      = .ok [Msg.human "How do I apply for FAFSA?",
             Msg.system "RAG tool error: vector store down", Msg.ai "answer"] :=
  ⟨rfl, rfl⟩

/-- C7: a conversation containing no user-authored message classifies as
`direct` with an empty question string. -/
theorem c7_no_user_message_direct (st : AgentState)
    (h : st.messages.all (fun m => !isHumanMsg m) = true) :
    analyze_question st = ("direct", "") := by
  have hnone : lastHumanContent st.messages = none := by
    unfold lastHumanContent
    exact firstHumanContent_eq_none _ (by simpa using h)
  simp [analyze_question, hnone]

/-- Witness for C7 at a conversation of one assistant and one system
message. -/
theorem c7_witness :
    analyze_question
        { messages := [Msg.ai "welcome", Msg.system "boot"],
          tool_choice := none, question := none } = ("direct", "") :=
  c7_no_user_message_direct _ (by decide)

/-- C8: `generate_response` prepends exactly the one fixed instruction
message before the conversation and returns the model's single reply; a model
failure is converted into `modelError` and propagates, with no router-level
retry — in particular a run whose dispatch stage completes normally ends in
`modelError` whenever the model call fails. -/
theorem c8_model_call_contract :
    (∀ (model : List Msg → Except String Msg) (st : AgentState) (reply : Msg),
        model (Msg.system system_prompt_content :: st.messages) = .ok reply →
        generate_response model st = .ok [reply]) ∧
    (∀ (model : List Msg → Except String Msg) (st : AgentState) (e : String),
        model (Msg.system system_prompt_content :: st.messages) = .error e →
        generate_response model st = .error (PyExn.modelError e)) ∧
    (∀ (retrieve search arxiv_run : String → Except String String) (e : String)
        (msgs : List Msg),
        (∀ q, ∃ v, arxiv_run q = .ok v) →
        route_and_respond retrieve search arxiv_run (fun _ => .error e) msgs
          = .error (PyExn.modelError e)) := by
  refine ⟨?_, ?_, ?_⟩
  · intro model st reply h
    simp [generate_response, h]
  · intro model st e h
    simp [generate_response, h]
  · intro retrieve search arxiv_run e msgs ha
    obtain ⟨tms, htms⟩ := dispatchStep_ok retrieve search arxiv_run
      { messages := msgs,
        tool_choice :=
          some (analyze_question
            { messages := msgs, tool_choice := none, question := none }).1,
        question :=
          some (analyze_question
            { messages := msgs, tool_choice := none, question := none }).2 } ha
    simp [route_and_respond, htms, generate_response]

/-- Witness for C8: each conjunct applied at a concrete model, state and
conversation. -/
theorem c8_witness :
    generate_response (fun _ => .ok (Msg.ai "fine"))
        { messages := [Msg.human "hi"], tool_choice := none, question := none }
      = .ok [Msg.ai "fine"] ∧
    generate_response (fun _ => .error "rate limited")
        { messages := [Msg.human "hi"], tool_choice := none, question := none }
      = .error (PyExn.modelError "rate limited") ∧
    route_and_respond (fun _ => .ok "r") (fun _ => .ok "w") (fun _ => .ok "a")
        (fun _ => .error "rate limited") [Msg.human "What is the latest news?"]
      = .error (PyExn.modelError "rate limited") :=
  ⟨c8_model_call_contract.1 _ _ _ rfl,
   c8_model_call_contract.2.1 _ _ _ rfl,
   c8_model_call_contract.2.2 _ _ _ _ _ (fun _ => ⟨"a", rfl⟩)⟩

/-- C5: for a question matching none of the three keyword sets, `Classify`
returns `direct`, the dispatch stage performs no tool call (the tool
collaborators are arbitrary and unused), and the returned conversation is the
input extended with exactly the one model reply — no tool-result message. -/
theorem c5_direct_no_tool_call
    (retrieve search arxiv_run : String → Except String String)
    (model : List Msg → Except String Msg)
    (msgs : List Msg) (q : String) (reply : Msg)
    (hlast : lastHumanContent msgs = some q)
    (hr : _should_use_rag q = false) (hw : _should_use_web_search q = false)
    (ha : _should_use_arxiv q = false)
    (hmodel : model (Msg.system system_prompt_content :: msgs) = .ok reply) :
    Classify q = .direct ∧
    route_and_respond retrieve search arxiv_run model msgs = .ok (msgs ++ [reply]) := by
  have hc : classifyChoice q = "direct" := by
    simp [classifyChoice, hr, hw, ha]
  refine ⟨by simp [Classify, hc, decisionOfChoice], ?_⟩
  by_cases hq : q = ""
  · simp [route_and_respond, analyze_question, hlast, hq, dispatchStep,
      route_to_tool, generate_response, hmodel]
  · simp [route_and_respond, analyze_question, hlast, hq, hc, dispatchStep,
      route_to_tool, generate_response, hmodel]

/-- Witness for C5: the spec's scenario "Hello, how are you?" gains exactly
the model reply, even when every tool collaborator would fail. -/
theorem c5_witness :
    Classify "Hello, how are you?" = .direct ∧
    route_and_respond (fun _ => .error "never called") (fun _ => .error "never called")
        (fun _ => .error "never called") (fun _ => .ok (Msg.ai "Hi there!"))
        [Msg.human "Hello, how are you?"]
      = .ok ([Msg.human "Hello, how are you?"] ++ [Msg.ai "Hi there!"]) :=
  c5_direct_no_tool_call _ _ _ _ _ _ _ rfl (by decide) (by decide) (by decide) rfl

/-- C6: whenever `route_and_respond` returns a conversation, that conversation
is the input extended in place-order with zero or one system-role tool-result
message followed by exactly one reply produced by the model on the augmented
conversation; the pre-existing history is preserved as a prefix, never
altered. -/
theorem c6_route_and_respond_extends
    (retrieve search arxiv_run : String → Except String String)
    (model : List Msg → Except String Msg) (msgs out : List Msg)
    (h : route_and_respond retrieve search arxiv_run model msgs = .ok out) :
    ∃ toolMsgs reply,
      out = msgs ++ toolMsgs ++ [reply] ∧
      toolMsgs.length ≤ 1 ∧
      (∀ m ∈ toolMsgs, ∃ s, m = Msg.system s) ∧
      model (Msg.system system_prompt_content :: (msgs ++ toolMsgs)) = .ok reply := by
  simp only [route_and_respond] at h
  cases hd : dispatchStep retrieve search arxiv_run
      { messages := msgs,
        tool_choice :=
          some (analyze_question
            { messages := msgs, tool_choice := none, question := none }).1,
        question :=
          some (analyze_question
            { messages := msgs, tool_choice := none, question := none }).2 } with
  | error e => simp [hd] at h
  | ok tms =>
    simp only [hd] at h
    cases hg : model (Msg.system system_prompt_content :: (msgs ++ tms)) with
    | error e => simp [generate_response, hg] at h
    | ok reply =>
      simp only [generate_response, hg] at h
      have hshape := dispatchStep_shape retrieve search arxiv_run _ tms hd
      refine ⟨tms, reply, by simpa [List.append_assoc] using h.symm, ?_, ?_, hg⟩
      · rcases hshape with h0 | ⟨s, hs⟩
        · simp [h0]
        · simp [hs]
      · rcases hshape with h0 | ⟨s, hs⟩
        · rw [h0]
          intro m hm
          simp at hm
        · rw [hs]
          intro m hm
          simp only [List.mem_singleton] at hm
          exact ⟨s, hm⟩

/-- Witness for C6 at a concrete retrieval-routed run. -/
theorem c6_witness :
    ∃ toolMsgs reply,
      ([Msg.human "Tell me about FAFSA", Msg.system "RAG Tool Result: docs",
        Msg.ai "final"] : List Msg)
        = [Msg.human "Tell me about FAFSA"] ++ toolMsgs ++ [reply] ∧
      toolMsgs.length ≤ 1 ∧
      (∀ m ∈ toolMsgs, ∃ s, m = Msg.system s) ∧
      (fun _ : List Msg => (Except.ok (Msg.ai "final") : Except String Msg))
          (Msg.system system_prompt_content ::
            ([Msg.human "Tell me about FAFSA"] ++ toolMsgs)) = .ok reply :=
  c6_route_and_respond_extends (fun _ => .ok "docs") (fun _ => .error "unused")
    (fun _ => .error "unused") (fun _ => .ok (Msg.ai "final"))
    [Msg.human "Tell me about FAFSA"]
    [Msg.human "Tell me about FAFSA", Msg.system "RAG Tool Result: docs",
     Msg.ai "final"] rfl

/-- C9 counterexample: the claim that every invocation of the graph reaches
`generate_response` and terminates fails at a concrete input — with a model
that always answers, a research question whose arXiv collaborator raises
makes `route_and_respond` abort with the `tool_message` UnboundLocalError
before response generation, so no reply is produced. -/
theorem c9_counterexample :
    route_and_respond (fun _ => .ok "r") (fun _ => .ok "w")
        (fun _ => .error "arxiv down") (fun _ => .ok (Msg.ai "the reply"))
        [Msg.human "Explain the mathematics of algorithms"]
      = .error (PyExn.unboundLocal "tool_message") :=
  rfl

/-- C9 amended: `route_to_tool` is total — it always returns one of the four
node labels and defaults to `generate_response` whenever `tool_choice` is
anything other than "rag", "web_search" or "arxiv" — and every invocation
whose selected tool node does not raise (in particular whenever the
academic-search collaborator does not fail) reaches `generate_response`
exactly once and terminates with its single reply appended. -/
theorem c9_routing_total_amended :
    (∀ st : AgentState,
        route_to_tool st = "use_rag" ∨ route_to_tool st = "use_web_search" ∨
        route_to_tool st = "use_arxiv" ∨ route_to_tool st = "generate_response") ∧
    (∀ st : AgentState, st.tool_choice ≠ some "rag" →
        st.tool_choice ≠ some "web_search" → st.tool_choice ≠ some "arxiv" →
        route_to_tool st = "generate_response") ∧
    (∀ (retrieve search arxiv_run : String → Except String String)
        (model : List Msg → Except String Msg) (msgs : List Msg) (reply : Msg),
        (∀ q, ∃ v, arxiv_run q = .ok v) →
        (∀ ms, model ms = .ok reply) →
        ∃ toolMsgs, route_and_respond retrieve search arxiv_run model msgs
          = .ok (msgs ++ toolMsgs ++ [reply])) := by
  refine ⟨?_, ?_, ?_⟩
  · intro st
    unfold route_to_tool
    split_ifs <;> simp
  · intro st h1 h2 h3
    unfold route_to_tool
    cases hc : st.tool_choice with
    | none => rfl
    | some c =>
      rw [hc] at h1 h2 h3
      have e1 : c ≠ "rag" := fun e => h1 (by rw [e])
      have e2 : c ≠ "web_search" := fun e => h2 (by rw [e])
      have e3 : c ≠ "arxiv" := fun e => h3 (by rw [e])
      simp [e1, e2, e3]
  · intro retrieve search arxiv_run model msgs reply ha hm
    obtain ⟨tms, htms⟩ := dispatchStep_ok retrieve search arxiv_run
      { messages := msgs,
        tool_choice :=
          some (analyze_question
            { messages := msgs, tool_choice := none, question := none }).1,
        question :=
          some (analyze_question
            { messages := msgs, tool_choice := none, question := none }).2 } ha
    exact ⟨tms, by simp [route_and_respond, htms, generate_response, hm]⟩

/-- Witness for C9's amended theorem: the default route at an unknown
`tool_choice`, and a full run on a research question with reliable
collaborators reaching generation. -/
theorem c9_witness :
    route_to_tool { messages := [], tool_choice := some "bogus", question := none }
      = "generate_response" ∧
    (∃ toolMsgs, route_and_respond (fun _ => .ok "r") (fun _ => .ok "w")
        (fun _ => .ok "a") (fun _ => .ok (Msg.ai "done"))
        [Msg.human "Recommend a good publication"]
      = .ok ([Msg.human "Recommend a good publication"] ++ toolMsgs ++ [Msg.ai "done"])) :=
  ⟨c9_routing_total_amended.2.1 _ (by decide) (by decide) (by decide),
   c9_routing_total_amended.2.2 _ _ _ _ _ _ (fun _ => ⟨"a", rfl⟩) (fun _ => rfl)⟩
